import Mathlib

/-!
Shallow embedding of the ai-call-center call/session orchestration engine.

The definitions below are translated from the Go sources:
  * `backend/internal/agentmgr/agentmgr.go` (AgentManager: SpawnAgent,
    StopAgent, ProcessIncomingAudio),
  * `backend/internal/livekitclient` RoomClient.processAudioChunk,
  * `libs/store/store.go` (SQLite-backed Store),
  * `libs/livekit/token.go` (GenerateAccessToken),
  * `backend/cmd/server/main.go` (the `/webhook/livekit` HTTP handler).

Modelling conventions: Go maps and SQLite tables become association lists
keyed by id strings; Go `error` results become `Except String`; the three
external pipeline capabilities (STT/LLM/TTS) and a `nil`-able Go interface
value become `Option` of a result-returning function; randomness (fresh row
ids) and the JWT signer are resolved by explicit parameters; the float32
confidence becomes an exact rational (the only operation on it in the source
is a comparison with the literal 0.5, which is exact in both models).
External calls that the source makes purely for effect (LLM Generate, TTS
Speak, file writes, audio publication) are recorded in an explicit trace so
that theorems can speak about which capabilities a run invoked.
-/

/-- Association list keyed by strings: the model of a Go `map[string]T`
and of a SQLite table keyed by its `id` column. -/
def lookupA {α : Type} : List (String × α) → String → Option α
  | [], _ => none
  | p :: rest, k => if p.1 = k then some p.2 else lookupA rest k

/-- Model of `delete(m, k)` on a Go map / of removing a keyed row. -/
def removeA {α : Type} : List (String × α) → String → List (String × α)
  | [], _ => []
  | p :: rest, k => if p.1 = k then removeA rest k else p :: removeA rest k

/-- Model of `m[k] = v` on a Go map (overwrite semantics) and of an SQL
INSERT performed after a uniqueness check. -/
def insertA {α : Type} (l : List (String × α)) (k : String) (v : α) :
    List (String × α) :=
  (k, v) :: removeA l k

/-- Model of `UPDATE t SET ... WHERE id = k`: every row whose key matches is
rewritten by `f`. -/
def updateA {α : Type} : List (String × α) → String → (α → α) → List (String × α)
  | [], _, _ => []
  | p :: rest, k, f =>
      if p.1 = k then (p.1, f p.2) :: updateA rest k f else p :: updateA rest k f

/-! ## The persisted store (`libs/store/store.go`)

`calls` and `sessions` rows keep the columns the Go schema declares; the
`token` column is nullable, hence `Option String`. The Go field name `type`
is a Lean keyword, rendered `typ`. -/

/-- A row of the `calls` table. -/
structure CallRow where
  callerId : String
  status : String
  deriving DecidableEq, Repr

/-- A row of the `sessions` table. -/
structure SessionRow where
  callId : String
  userId : String
  typ : String
  status : String
  token : Option String
  deriving DecidableEq, Repr

/-- The persisted store: the two tables the engine uses. -/
structure StoreState where
  calls : List (String × CallRow)
  sessions : List (String × SessionRow)
  deriving DecidableEq, Repr

/-- `Store.CreateCall` from `libs/store/store.go`: validates the caller id,
then inserts the call row and the caller session row inside one transaction
(any insert failure rolls the whole transaction back). The two fresh random
ids the Go code draws from `genID()` are passed in as `callID`/`sessionID`;
an insert fails exactly when its primary key already exists. -/
def StoreState.createCall (st : StoreState)
    (callerID callID sessionID : String) :
    Except String (String × String) × StoreState :=
  if callerID = "" then (.error "caller_id required", st)
  else if (lookupA st.calls callID).isSome then
    (.error "UNIQUE constraint failed: calls.id", st)
  else
    let st1 : StoreState :=
      { st with calls := insertA st.calls callID ⟨callerID, "new"⟩ }
    if (lookupA st1.sessions sessionID).isSome then
      (.error "UNIQUE constraint failed: sessions.id", st)
    else
      (.ok (callID, sessionID),
       { st1 with sessions :=
           insertA st1.sessions sessionID ⟨callID, callerID, "caller", "new", none⟩ })

/-- `Store.CreateSession`: inserts one session row; the fresh random id is
passed in as `id`. -/
def StoreState.createSession (st : StoreState)
    (id callID userID typ status : String) :
    Except String String × StoreState :=
  if (lookupA st.sessions id).isSome then
    (.error "UNIQUE constraint failed: sessions.id", st)
  else
    (.ok id,
     { st with sessions := insertA st.sessions id ⟨callID, userID, typ, status, none⟩ })

/-- `Store.UpdateSessionStatus`: errors when no row matched. -/
def StoreState.updateSessionStatus (st : StoreState)
    (sessionID status : String) : Except String Unit × StoreState :=
  if (lookupA st.sessions sessionID).isSome then
    (.ok (),
     { st with sessions :=
         updateA st.sessions sessionID (fun r => { r with status := status }) })
  else (.error ("session not found: " ++ sessionID), st)

/-- `Store.UpdateSessionToken`: errors when no row matched. -/
def StoreState.updateSessionToken (st : StoreState)
    (sessionID token : String) : Except String Unit × StoreState :=
  if (lookupA st.sessions sessionID).isSome then
    (.ok (),
     { st with sessions :=
         updateA st.sessions sessionID (fun r => { r with token := some token }) })
  else (.error ("session not found: " ++ sessionID), st)

/-- `Store.GetSessionToken`: a missing row is a scan error; a NULL token
column reads back as the empty string. -/
def StoreState.getSessionToken (st : StoreState) (sessionID : String) :
    Except String String :=
  match lookupA st.sessions sessionID with
  | none => .error "sql: no rows in result set"
  | some r => .ok (r.token.getD "")

/-- `Store.UpdateCallStatus`: errors when no row matched. -/
def StoreState.updateCallStatus (st : StoreState)
    (callID status : String) : Except String Unit × StoreState :=
  if (lookupA st.calls callID).isSome then
    (.ok (),
     { st with calls :=
         updateA st.calls callID (fun r => { r with status := status }) })
  else (.error ("call not found: " ++ callID), st)

/-! ## The audio pipeline

`AgentManager.ProcessIncomingAudio` (agentmgr.go) and
`RoomClient.processAudioChunk` (livekitclient) both drive the
Recognize → Generate → Synthesize pipeline, with different fallback and
gating behaviour. The three capability ports are `nil`-able Go interfaces,
so each is an `Option` of a fallible function. The trace records which
external capabilities a run invoked and with what reply text. -/

/-- The capability ports held by `AgentManager` (and, for the streaming
path, by `RoomClient`): speech-to-text, language model, text-to-speech. -/
structure PipelinePorts where
  stt : Option (List Nat → Except String (String × ℚ))
  llm : Option (String → Except String String)
  tts : Option (String → Except String (List Nat))

/-- What a `ProcessIncomingAudio` run did besides returning: whether
`Generate` ran, the reply text that survived the fallback logic, whether
`Speak` ran, and whether a reply audio file was written under
`out/agents/`. -/
structure PiaTrace where
  generateInvoked : Bool
  replyText : Option String
  synthesizeInvoked : Bool
  artifactWritten : Bool
  deriving DecidableEq, Repr

/-- The fixed fallback reply of `AgentManager.ProcessIncomingAudio`. -/
def piaFallback : String := "I heard you. Let me know if you'd like help."

/-- `AgentManager.ProcessIncomingAudio` (agentmgr.go lines 149-184): run
STT; on success run the LLM when present, keeping its reply only when it
succeeded; substitute the fixed fallback when the reply is empty; run TTS
when present, writing the audio artifact only when `Speak` succeeded with
non-empty output (the `os.WriteFile` error itself is discarded). The STT
confidence is discarded (`transcript, _, err := m.stt.Recognize(audio)`).
Returns the transcript. -/
def processIncomingAudio (m : PipelinePorts) (audio : List Nat) :
    Except String String × PiaTrace :=
  match m.stt with
  | none => (.error "stt not configured", ⟨false, none, false, false⟩)
  | some recognize =>
    match recognize audio with
    | .error e => (.error e, ⟨false, none, false, false⟩)
    | .ok (transcript, _confidence) =>
      let gen : String × Bool :=
        match m.llm with
        | none => ("", false)
        | some generate =>
          match generate transcript with
          | .ok r => (r, true)
          | .error _ => ("", true)
      let reply := if gen.1 = "" then piaFallback else gen.1
      let synth : Bool × Bool :=
        match m.tts with
        | none => (false, false)
        | some speak =>
          match speak reply with
          | .ok audioOut => (true, !audioOut.isEmpty)
          | .error _ => (true, false)
      (.ok transcript, ⟨gen.2, some reply, synth.1, synth.2⟩)

/-- What a `processAudioChunk` run did: whether `Generate` ran, the
response text used, whether `Speak` ran, and whether the synthesized audio
reached `publishAudio` (the write to the outbound track). -/
structure ChunkTrace where
  generateInvoked : Bool
  replyText : Option String
  synthesizeInvoked : Bool
  audioPublished : Bool
  deriving DecidableEq, Repr

/-- The fixed fallback response of the streaming path. -/
def chunkFallback : String := "I'm sorry, I didn't catch that."

/-- The capability ports of a `RoomClient`; `audioTrackReady` models
whether `rc.audioTrack` is non-nil. -/
structure ChunkPorts where
  stt : Option (List Nat → Except String (String × ℚ))
  llm : Option (String → Except String String)
  tts : Option (String → Except String (List Nat))
  audioTrackReady : Bool

/-- `RoomClient.processAudioChunk` (livekitclient, lines 273-323 of the
concatenated factory source): empty chunks, a missing STT port, STT errors,
and recognized windows with confidence < 0.5 or an empty transcript are all
dropped with no further capability call. Past the gate, the LLM reply is
used when it succeeded, the fixed fallback on LLM error, and an echo text
when no LLM is configured; TTS runs only when both the TTS port and the
outbound audio track exist, and its output is handed to `publishAudio`
unless `Speak` errored. -/
def processAudioChunk (rc : ChunkPorts) (audio : List Nat) : ChunkTrace :=
  if audio.isEmpty then ⟨false, none, false, false⟩
  else
    match rc.stt with
    | none => ⟨false, none, false, false⟩
    | some recognize =>
      match recognize audio with
      | .error _ => ⟨false, none, false, false⟩
      | .ok (transcript, confidence) =>
        if confidence < 1/2 ∨ transcript = "" then ⟨false, none, false, false⟩
        else
          let gen : String × Bool :=
            match rc.llm with
            | none => ("I heard you say: " ++ transcript, false)
            | some generate =>
              match generate transcript with
              | .ok r => (r, true)
              | .error _ => (chunkFallback, true)
          let synth : Bool × Bool :=
            match rc.tts, rc.audioTrackReady with
            | some speak, true =>
              match speak gen.1 with
              | .ok _audioData => (true, true)
              | .error _ => (true, false)
            | _, _ => (false, false)
          ⟨gen.2, some gen.1, synth.1, synth.2⟩

/-! ## Token issuance (`libs/livekit/token.go`) -/

/-- `livekit.GenerateAccessToken`: refuses an empty api key or secret; the
JWT construction itself (random jti, time-based claims, HMAC signing) is an
external crypto primitive, resolved by the `signJWT` parameter. -/
def GenerateAccessToken (signJWT : String → String → String → String → String)
    (apiKey apiSecret room identity : String) : Except String String :=
  if apiKey = "" ∨ apiSecret = "" then .error "livekit api key/secret required"
  else .ok (signJWT apiKey apiSecret room identity)

/-! ## The agent manager (`backend/internal/agentmgr/agentmgr.go`) -/

/-- The `livekit` entry of `Config.VendorSettings`; a missing map key reads
as the empty string in the Go code, so absent keys are empty fields here. -/
structure LivekitSettings where
  apiKey : String
  apiSecret : String
  url : String
  deriving DecidableEq, Repr

/-- The slice of `config.Config` the agent manager reads:
`VendorSettings["livekit"]`, which may be absent (`nil`). -/
structure Config where
  livekit : Option LivekitSettings
  deriving DecidableEq, Repr

/-- The `apiKey, apiSecret, url := ...` extraction at agentmgr.go lines
62-68: a `nil` settings map yields three empty strings. -/
def livekitTriple (cfg : Config) : String × String × String :=
  match cfg.livekit with
  | none => ("", "", "")
  | some lk => (lk.apiKey, lk.apiSecret, lk.url)

/-- The data of a `livekitclient.RoomClient` as registered by the manager
(the live transport objects are external resources). -/
structure RoomClient where
  url : String
  token : String
  roomName : String
  identity : String
  deriving DecidableEq, Repr

/-- The mutable state of an `AgentManager`: the three registry maps guarded
by `mu`, plus the persisted store. Cancellation handles are opaque ids. -/
structure AgentManagerState where
  agents : List (String × String)
  clients : List (String × RoomClient)
  cancels : List (String × Nat)
  store : StoreState
  deriving DecidableEq, Repr

/-- `agentmgr.New`: all three registry maps start empty. -/
def newAgentManager (st : StoreState) : AgentManagerState :=
  { agents := [], clients := [], cancels := [], store := st }

/-- `AgentManager.SpawnAgent` (agentmgr.go lines 48-116), the synchronous
part up to its return (the background connect goroutine is a separate
concurrent step and is not entered before `SpawnAgent` returns). In source
order: reject when an agent is already registered for `callID`; create the
agent session row (fresh id resolved by `newSessionID`); read the livekit
settings and reject an empty url; issue the access token (signer resolved
by `signJWT`); persist the token and mark the session active, both with the
error discarded; register the room client and the cancellation handle
(resolved by `newCancelId`) in all three maps. Returns (sessionID, token). -/
def spawnAgent (cfg : Config)
    (signJWT : String → String → String → String → String)
    (newSessionID : String) (newCancelId : Nat)
    (m : AgentManagerState) (callID : String) :
    Except String (String × String) × AgentManagerState :=
  if (lookupA m.agents callID).isSome then
    (.error ("agent already exists for call " ++ callID), m)
  else
    match m.store.createSession newSessionID callID "ai-agent" "agent" "new" with
    | (.error e, st1) => (.error e, { m with store := st1 })
    | (.ok sessionID, st1) =>
      let t := livekitTriple cfg
      if t.2.2 = "" then
        (.error "livekit url not configured", { m with store := st1 })
      else
        match GenerateAccessToken signJWT t.1 t.2.1 callID sessionID with
        | .error e => (.error e, { m with store := st1 })
        | .ok token =>
          let st2 := (st1.updateSessionToken sessionID token).2
          let st3 := (st2.updateSessionStatus sessionID "active").2
          let rc : RoomClient := ⟨t.2.2, token, callID, sessionID⟩
          (.ok (sessionID, token),
           { agents := insertA m.agents callID sessionID,
             clients := insertA m.clients callID rc,
             cancels := insertA m.cancels callID newCancelId,
             store := st3 })

/-- `AgentManager.StopAgent` (agentmgr.go lines 119-145): under the lock,
read the handle and delete the `callID` entry from all three maps
unconditionally; outside the lock, error when no cancellation handle was
present, otherwise cancel, best-effort disconnect (error only logged), and
mark the session ended with the store error discarded. The Go map read
`m.agents[callID]` yields the zero value `""` when absent. -/
def stopAgent (m : AgentManagerState) (callID : String) :
    Except String Unit × AgentManagerState :=
  let hadCancel := (lookupA m.cancels callID).isSome
  let sessionID := (lookupA m.agents callID).getD ""
  let m1 : AgentManagerState :=
    { m with
      cancels := removeA m.cancels callID,
      agents := removeA m.agents callID,
      clients := removeA m.clients callID }
  if hadCancel then
    (.ok (), { m1 with store := (m1.store.updateSessionStatus sessionID "ended").2 })
  else
    (.error ("no agent for call " ++ callID), m1)

/-! ## The `/webhook/livekit` handler (`backend/cmd/server/main.go`)

The handler reads the raw body, verifies an HMAC-SHA256 signature against
the shared `api_secret` when one is configured (accepting the hex or the
standard-base64 encoding of the digest), parses the body as JSON, runs the
event dispatch (whose store and agent-manager effects all fall through),
and writes 204 with an empty body. HMAC-SHA256 itself is an external
crypto primitive, resolved by the `hmacSha256` parameter; JSON parsing of
the event union is resolved by `parseEvent`. The hex and base64 encodings
are implemented concretely below, matching Go's `encoding/hex` and
`encoding/base64` `StdEncoding`. -/

/-- Lowercase hex digit, as in Go's `encoding/hex`. -/
def hexDigit (n : Nat) : Char :=
  "0123456789abcdef".toList.getD n '0'

/-- `hex.EncodeToString`: two lowercase hex digits per byte. -/
def hexEncode : List Nat → String
  | [] => ""
  | b :: rest => String.mk [hexDigit (b / 16 % 16), hexDigit (b % 16)] ++ hexEncode rest

/-- Base64 alphabet character, as in Go's `base64.StdEncoding`. -/
def b64Char (n : Nat) : Char :=
  "ABCDEFGHIJKLMNOPQRSTUVWXYZabcdefghijklmnopqrstuvwxyz0123456789+/".toList.getD n 'A'

/-- `base64.StdEncoding.EncodeToString`: 6-bit groups with `=` padding. -/
def base64Encode : List Nat → String
  | [] => ""
  | [a] => String.mk [b64Char (a / 4 % 64), b64Char (a % 4 * 16), '=', '=']
  | [a, b] =>
      String.mk [b64Char (a / 4 % 64), b64Char (a % 4 * 16 + b / 16 % 16),
        b64Char (b % 16 * 4), '=']
  | a :: b :: c :: rest =>
      String.mk [b64Char (a / 4 % 64), b64Char (a % 4 * 16 + b / 16 % 16),
        b64Char (b % 16 * 4 + c / 64 % 4), b64Char (c % 64)] ++ base64Encode rest

/-- A `POST /webhook/livekit` request as the handler sees it: the two
signature headers (`Header.Get` returns `""` when absent) and the raw
body bytes. -/
structure WebhookRequest where
  xSignature : String
  altSignature : String
  body : List Nat

/-- The `sig := r.Header.Get("X-LiveKit-Signature"); if sig == "" { sig =
r.Header.Get("Livekit-Signature") }` fallback of the handler. -/
def resolvedSignature (req : WebhookRequest) : String :=
  if req.xSignature ≠ "" then req.xSignature else req.altSignature

/-- The signature-verification verdict of the handler when a secret is
configured: `some` of the early 401 response, or `none` when the request
may proceed to JSON parsing. -/
def signatureVerdict (hmacSha256 : String → List Nat → List Nat)
    (secret : String) (req : WebhookRequest) : Option (Nat × String) :=
  if resolvedSignature req = "" then some (401, "missing signature")
  else
    let expected := hmacSha256 secret req.body
    if resolvedSignature req = hexEncode expected then none
    else if resolvedSignature req = base64Encode expected then none
    else some (401, "invalid signature")

/-- The `/webhook/livekit` handler's HTTP response, as (status, body).
`secret` is `VendorSettings["livekit"]["api_secret"]`, the empty string
when the map is `nil` or the key unset, in which case verification is
skipped. `parseEvent` stands for `json.Unmarshal` of the event union: it
returns `none` exactly when the body is not valid JSON. Every dispatch arm
(and the default arm) falls through to `w.WriteHeader(204)`, so the
response does not depend on the event's content; the dispatch effects on
the store and agent manager are modelled separately. -/
def webhookLivekit {ε : Type} (hmacSha256 : String → List Nat → List Nat)
    (parseEvent : List Nat → Option ε)
    (secret : String) (req : WebhookRequest) : Nat × String :=
  let verdict : Option (Nat × String) :=
    if secret = "" then none
    else signatureVerdict hmacSha256 secret req
  match verdict with
  | some resp => resp
  | none =>
    match parseEvent req.body with
    | none => (400, "bad request")
    | some _ => (204, "")

/-! ## The registry alignment invariant -/

/-- Alignment of the three registry maps of `AgentManager`: a call id is
registered in `agents` exactly when it is registered in `clients` and
exactly when it is registered in `cancels`. -/
def sameKeys (m : AgentManagerState) : Prop :=
  ∀ k, (lookupA m.agents k).isSome = (lookupA m.clients k).isSome ∧
       (lookupA m.agents k).isSome = (lookupA m.cancels k).isSome

/-! ## Concrete fixtures used by the witness theorems -/

/-- A configuration with the livekit url, api key and secret all set. -/
def cfgW : Config := ⟨some ⟨"key", "secret", "http://livekit.example"⟩⟩

/-- A configuration whose livekit url is unset. -/
def cfgNoUrl : Config := ⟨some ⟨"key", "secret", ""⟩⟩

/-- A concrete stand-in for the external JWT signer. -/
def sjW : String → String → String → String → String :=
  fun _ _ _ _ => "jwt"

/-- The empty store. -/
def store0 : StoreState := ⟨[], []⟩

/-- A store holding one caller session row. -/
def store1 : StoreState :=
  ⟨[], [("s0", ⟨"c0", "alice", "caller", "new", none⟩)]⟩

/-- A fresh agent manager over the empty store. -/
def mgr0 : AgentManagerState := newAgentManager store0

/-- The manager state after one successful spawn for call `c1`. -/
def mgr1 : AgentManagerState := (spawnAgent cfgW sjW "s1" 0 mgr0 "c1").2

/-- An STT port returning a non-empty transcript at confidence 0. -/
def lowConfStt : List Nat → Except String (String × ℚ) :=
  fun _ => .ok ("hello", 0)

/-- An STT port returning a non-empty transcript at confidence 1. -/
def goodStt : List Nat → Except String (String × ℚ) :=
  fun _ => .ok ("hello world", 1)

/-- An LLM port that always answers. -/
def okLlm : String → Except String String := fun _ => .ok "hi there"

/-- An LLM port that always fails. -/
def failLlm : String → Except String String := fun _ => .error "llm down"

/-- A TTS port that always produces audio. -/
def okTts : String → Except String (List Nat) := fun _ => .ok [1, 2, 3]

/-- Pipeline ports whose STT reports confidence 0 (below the 0.5 gate). -/
def c1Ports : PipelinePorts := ⟨some lowConfStt, some okLlm, some okTts⟩

/-- Streaming ports whose STT reports confidence 0 (below the 0.5 gate). -/
def c1ChunkPorts : ChunkPorts := ⟨some lowConfStt, some okLlm, some okTts, true⟩

/-- Pipeline ports with a failing LLM. -/
def c9Ports : PipelinePorts := ⟨some goodStt, some failLlm, some okTts⟩

/-- Streaming ports with a failing LLM. -/
def c9ChunkPorts : ChunkPorts := ⟨some goodStt, some failLlm, some okTts, true⟩

/-- A concrete stand-in for HMAC-SHA256: a 32-byte digest. -/
def hmacW : String → List Nat → List Nat :=
  fun _ _ => List.replicate 32 7

/-- A concrete stand-in for JSON event parsing: only `[123, 125]` (the
bytes of `{}`) is well-formed. -/
def parseW : List Nat → Option Unit :=
  fun body => if body = [123, 125] then some () else none

/-- A webhook request with a valid JSON body, carrying the correct hex
signature of the digest `hmacW` produces for any input. -/
def reqHexOk : WebhookRequest :=
  ⟨hexEncode (List.replicate 32 7), "", [123, 125]⟩

/-- A webhook request with a valid JSON body but a wrong signature. -/
def reqBadSig : WebhookRequest :=
  ⟨"nope", "", [123, 125]⟩

/-- A webhook request whose body is not valid JSON (for `parseW`), carrying
the correct base64 signature. -/
def reqBadJson : WebhookRequest :=
  ⟨"", base64Encode (List.replicate 32 7), [0]⟩

/-! ## Association-list lemmas -/

theorem lookupA_removeA_self {α : Type} (l : List (String × α)) (k : String) :
    lookupA (removeA l k) k = none := by
  induction l with
  | nil => rfl
  | cons p rest ih =>
      by_cases h : p.1 = k
      · simp [removeA, h, ih]
      · simp [removeA, lookupA, h, ih]

theorem lookupA_removeA_ne {α : Type} (l : List (String × α)) (k k' : String)
    (h : k' ≠ k) : lookupA (removeA l k) k' = lookupA l k' := by
  induction l with
  | nil => rfl
  | cons p rest ih =>
      simp only [removeA, lookupA]
      by_cases hp : p.1 = k
      · have hk' : ¬ p.1 = k' := fun hk => h (hk.symm.trans hp)
        rw [if_pos hp, if_neg hk', ih]
      · rw [if_neg hp]
        simp only [lookupA]
        by_cases hq : p.1 = k'
        · rw [if_pos hq, if_pos hq]
        · rw [if_neg hq, if_neg hq, ih]

theorem lookupA_insertA_self {α : Type} (l : List (String × α)) (k : String)
    (v : α) : lookupA (insertA l k v) k = some v := by
  simp [insertA, lookupA]

theorem lookupA_insertA_ne {α : Type} (l : List (String × α)) (k k' : String)
    (v : α) (h : k' ≠ k) : lookupA (insertA l k v) k' = lookupA l k' := by
  have : k ≠ k' := fun hk => h hk.symm
  simp [insertA, lookupA, this, lookupA_removeA_ne l k k' h]

theorem lookupA_updateA_self {α : Type} (l : List (String × α)) (k : String)
    (f : α → α) : lookupA (updateA l k f) k = (lookupA l k).map f := by
  induction l with
  | nil => rfl
  | cons p rest ih =>
      by_cases h : p.1 = k
      · simp [updateA, h, lookupA, ih]
      · simp [updateA, h, lookupA, ih]

/-! ## C4: stopping twice in a row -/

/-- C4. For every call id and every manager state, two `StopAgent` calls in
a row are safe (both are total functions of the state) and the second one
always returns the no-active-agent error, because the first call removes
the `cancels` entry unconditionally, and a second remove of the same key
always observes `NotFound`. -/
theorem C4_stop_twice_second_errors (m : AgentManagerState) (callID : String) :
    (stopAgent (stopAgent m callID).2 callID).1 =
      .error ("no agent for call " ++ callID) := by
  have hc : (stopAgent m callID).2.cancels = removeA m.cancels callID := by
    by_cases h : (lookupA m.cancels callID).isSome <;> simp [stopAgent, h]
  have h2 : (lookupA (stopAgent m callID).2.cancels callID).isSome = false := by
    rw [hc, lookupA_removeA_self]; rfl
  generalize hX : (stopAgent m callID).2 = X at h2
  simp [stopAgent, h2]

/-! ## C8: token round-trip -/

/-- C8. For every store state holding a row for `sid` and every token
string, `UpdateSessionToken` succeeds and a subsequent `GetSessionToken`
returns exactly the string that was written. -/
theorem C8_token_roundtrip (st : StoreState) (sid token : String)
    (h : (lookupA st.sessions sid).isSome) :
    (st.updateSessionToken sid token).1 = .ok () ∧
    (st.updateSessionToken sid token).2.getSessionToken sid = .ok token := by
  obtain ⟨r, hr⟩ := Option.isSome_iff_exists.mp h
  refine ⟨by simp [StoreState.updateSessionToken, h], ?_⟩
  simp [StoreState.updateSessionToken, h, StoreState.getSessionToken,
    lookupA_updateA_self, hr]

/-- C8 witness: the round-trip at a concrete store, session and token. -/
theorem C8_token_roundtrip_witness :
    (store1.updateSessionToken "s0" "tok-bytes").1 = .ok () ∧
    (store1.updateSessionToken "s0" "tok-bytes").2.getSessionToken "s0" =
      .ok "tok-bytes" :=
  C8_token_roundtrip store1 "s0" "tok-bytes" (by decide)

/-! ## C3: stop removes the handle and persists "ended" -/

/-- C3. For every call id with a registered agent handle (an `agents` entry
with session id `sid` and a `cancels` entry, as every completed spawn
installs) whose session row exists in the store, `StopAgent` succeeds,
afterwards none of the three registry maps holds an entry for the call (a
subsequent lookup observes `NotFound`), and the persisted status of the
agent session row is `"ended"`. -/
theorem C3_stop_clears_and_ends (m : AgentManagerState) (callID sid : String)
    (hAgent : lookupA m.agents callID = some sid)
    (hCancel : (lookupA m.cancels callID).isSome)
    (hRow : (lookupA m.store.sessions sid).isSome) :
    (stopAgent m callID).1 = .ok () ∧
    lookupA (stopAgent m callID).2.agents callID = none ∧
    lookupA (stopAgent m callID).2.clients callID = none ∧
    lookupA (stopAgent m callID).2.cancels callID = none ∧
    (lookupA (stopAgent m callID).2.store.sessions sid).map SessionRow.status =
      some "ended" := by
  obtain ⟨r, hr⟩ := Option.isSome_iff_exists.mp hRow
  simp only [stopAgent, hCancel, if_true, hAgent, Option.getD_some]
  refine ⟨by trivial, lookupA_removeA_self _ _, lookupA_removeA_self _ _,
    lookupA_removeA_self _ _, ?_⟩
  simp [StoreState.updateSessionStatus, hRow, lookupA_updateA_self, hr]

/-- C3 witness: stopping the concrete spawned agent of `mgr1`. -/
theorem C3_stop_clears_and_ends_witness :
    (stopAgent mgr1 "c1").1 = .ok () ∧
    lookupA (stopAgent mgr1 "c1").2.agents "c1" = none ∧
    lookupA (stopAgent mgr1 "c1").2.clients "c1" = none ∧
    lookupA (stopAgent mgr1 "c1").2.cancels "c1" = none ∧
    (lookupA (stopAgent mgr1 "c1").2.store.sessions "s1").map SessionRow.status =
      some "ended" :=
  C3_stop_clears_and_ends mgr1 "c1" "s1" (by decide) (by decide) (by decide)

/-! ## C7: CreateCall is transactional -/

/-- C7. `CreateCall` creates the call row and the caller session row
atomically: whenever it fails — in particular for an empty caller id — the
store is exactly as before (the transaction rolled back, nothing partially
applied), and whenever it succeeds both rows exist, the call with status
`"new"` and the session with role `"caller"` and status `"new"`. The two
fresh ids drawn inside the Go function are the `callID`/`sessionID`
parameters. -/
theorem C7_createCall_atomic (st : StoreState)
    (callerID callID sessionID : String) :
    (∀ e, (st.createCall callerID callID sessionID).1 = .error e →
        (st.createCall callerID callID sessionID).2 = st) ∧
    (∀ ids, (st.createCall callerID callID sessionID).1 = .ok ids →
        lookupA (st.createCall callerID callID sessionID).2.calls callID =
          some ⟨callerID, "new"⟩ ∧
        lookupA (st.createCall callerID callID sessionID).2.sessions sessionID =
          some ⟨callID, callerID, "caller", "new", none⟩) ∧
    (callerID = "" → ∃ e, (st.createCall callerID callID sessionID).1 = .error e) := by
  unfold StoreState.createCall
  by_cases h1 : callerID = ""
  · simp [h1]
  · by_cases h2 : (lookupA st.calls callID).isSome
    · simp [h1, h2]
    · by_cases h3 : (lookupA st.sessions sessionID).isSome
      · simp [h1, h2, h3]
      · simp [h1, h2, h3, lookupA_insertA_self]

/-- C7 witness: a successful concrete creation shows both rows, and a
failing one (empty caller id) leaves the store untouched. -/
theorem C7_createCall_atomic_witness :
    (lookupA (store0.createCall "alice" "c7" "s7").2.calls "c7" =
        some ⟨"alice", "new"⟩ ∧
      lookupA (store0.createCall "alice" "c7" "s7").2.sessions "s7" =
        some ⟨"c7", "alice", "caller", "new", none⟩) ∧
    (store0.createCall "" "c7" "s7").2 = store0 :=
  ⟨(C7_createCall_atomic store0 "alice" "c7" "s7").2.1 ("c7", "s7") rfl,
   (C7_createCall_atomic store0 "" "c7" "s7").1 "caller_id required" rfl⟩

/-! ## Spawn characterization and C2, C5, C10 -/

/-- Case split on `spawnAgent`: every run either fails leaving all three
registry maps untouched, or succeeds registering the new session id, room
client and cancellation handle under `callID` in all three maps. -/
theorem spawnAgent_cases (cfg : Config)
    (sj : String → String → String → String → String)
    (ns : String) (nc : Nat) (m : AgentManagerState) (callID : String) :
    ((spawnAgent cfg sj ns nc m callID).2.agents = m.agents ∧
     (spawnAgent cfg sj ns nc m callID).2.clients = m.clients ∧
     (spawnAgent cfg sj ns nc m callID).2.cancels = m.cancels ∧
     ∃ e, (spawnAgent cfg sj ns nc m callID).1 = .error e) ∨
    (∃ tok,
     (spawnAgent cfg sj ns nc m callID).1 = .ok (ns, tok) ∧
     (spawnAgent cfg sj ns nc m callID).2.agents = insertA m.agents callID ns ∧
     (spawnAgent cfg sj ns nc m callID).2.clients =
       insertA m.clients callID ⟨(livekitTriple cfg).2.2, tok, callID, ns⟩ ∧
     (spawnAgent cfg sj ns nc m callID).2.cancels = insertA m.cancels callID nc) := by
  by_cases h1 : (lookupA m.agents callID).isSome
  · left; simp [spawnAgent, h1]
  · by_cases h2 : (lookupA m.store.sessions ns).isSome
    · left; simp [spawnAgent, h1, StoreState.createSession, h2]
    · by_cases h3 : (livekitTriple cfg).2.2 = ""
      · left; simp [spawnAgent, h1, StoreState.createSession, h2, h3]
      · by_cases h4 : (livekitTriple cfg).1 = "" ∨ (livekitTriple cfg).2.1 = ""
        · left
          simp [spawnAgent, h1, StoreState.createSession, h2, h3,
            GenerateAccessToken, h4]
        · right
          refine ⟨sj (livekitTriple cfg).1 (livekitTriple cfg).2.1 callID ns, ?_⟩
          simp [spawnAgent, h1, StoreState.createSession, h2, h3,
            GenerateAccessToken, h4]

/-- C2. A second `SpawnAgent` for the same call, with no intervening
`StopAgent`, fails with the agent-already-active error, and the state —
registry entries, session id, room client and cancellation handle of the
first agent, and the store — is returned exactly as the first spawn left
it. -/
theorem C2_second_spawn_rejected (cfg cfg2 : Config)
    (sj sj2 : String → String → String → String → String)
    (ns ns2 : String) (nc nc2 : Nat) (m m1 : AgentManagerState)
    (callID sid tok : String)
    (h : spawnAgent cfg sj ns nc m callID = (.ok (sid, tok), m1)) :
    spawnAgent cfg2 sj2 ns2 nc2 m1 callID =
      (.error ("agent already exists for call " ++ callID), m1) := by
  have hl : lookupA m1.agents callID = some sid := by
    rcases spawnAgent_cases cfg sj ns nc m callID with
      ⟨_, _, _, e, he⟩ | ⟨tok', h1, ha, _, _⟩
    · rw [h] at he; simp at he
    · rw [h] at h1 ha
      simp only at h1 ha
      have : sid = ns := by
        cases h1
        rfl
      rw [ha, this]
      exact lookupA_insertA_self _ _ _
  have hls : (lookupA m1.agents callID).isSome = true := by rw [hl]; rfl
  simp [spawnAgent, hls]

/-- C2 witness: the second spawn for call `c1` on the concrete state left
by the first one. -/
theorem C2_second_spawn_rejected_witness :
    spawnAgent cfgW sjW "s2" 1 mgr1 "c1" =
      (.error ("agent already exists for call " ++ "c1"), mgr1) :=
  C2_second_spawn_rejected cfgW cfgW sjW sjW "s1" "s2" 0 1 mgr0 mgr1 "c1" "s1"
    "jwt" rfl

/-- C5. For a call with no registered agent (and a fresh session id, so the
session insert itself succeeds), `SpawnAgent` fails with the
url-not-configured error when the livekit url is empty and with the
key/secret error when the token issuer refuses, and in either case no
agent handle is registered for the call in any of the three maps. -/
theorem C5_spawn_token_failure (cfg : Config)
    (sj : String → String → String → String → String)
    (ns : String) (nc : Nat) (m : AgentManagerState) (callID : String)
    (hA : lookupA m.agents callID = none)
    (hC : lookupA m.clients callID = none)
    (hK : lookupA m.cancels callID = none)
    (hFresh : lookupA m.store.sessions ns = none)
    (hBad : (livekitTriple cfg).2.2 = "" ∨ (livekitTriple cfg).1 = "" ∨
      (livekitTriple cfg).2.1 = "") :
    ((spawnAgent cfg sj ns nc m callID).1 = .error "livekit url not configured" ∨
     (spawnAgent cfg sj ns nc m callID).1 = .error "livekit api key/secret required") ∧
    lookupA (spawnAgent cfg sj ns nc m callID).2.agents callID = none ∧
    lookupA (spawnAgent cfg sj ns nc m callID).2.clients callID = none ∧
    lookupA (spawnAgent cfg sj ns nc m callID).2.cancels callID = none := by
  have h1 : (lookupA m.agents callID).isSome = false := by rw [hA]; rfl
  have h2 : (lookupA m.store.sessions ns).isSome = false := by rw [hFresh]; rfl
  by_cases h3 : (livekitTriple cfg).2.2 = ""
  · simp [spawnAgent, h1, StoreState.createSession, h2, h3, hA, hC, hK]
  · have h4 : (livekitTriple cfg).1 = "" ∨ (livekitTriple cfg).2.1 = "" := by
      rcases hBad with h | h | h
      · exact absurd h h3
      · exact .inl h
      · exact .inr h
    simp [spawnAgent, h1, StoreState.createSession, h2, h3,
      GenerateAccessToken, h4, hA, hC, hK]

/-- C5 witness: spawning with an unconfigured livekit url on the empty
manager fails and registers nothing. -/
theorem C5_spawn_token_failure_witness :
    ((spawnAgent cfgNoUrl sjW "s5" 0 mgr0 "c5").1 =
        .error "livekit url not configured" ∨
     (spawnAgent cfgNoUrl sjW "s5" 0 mgr0 "c5").1 =
        .error "livekit api key/secret required") ∧
    lookupA (spawnAgent cfgNoUrl sjW "s5" 0 mgr0 "c5").2.agents "c5" = none ∧
    lookupA (spawnAgent cfgNoUrl sjW "s5" 0 mgr0 "c5").2.clients "c5" = none ∧
    lookupA (spawnAgent cfgNoUrl sjW "s5" 0 mgr0 "c5").2.cancels "c5" = none :=
  C5_spawn_token_failure cfgNoUrl sjW "s5" 0 mgr0 "c5" rfl rfl rfl rfl (.inl rfl)

/-- C10. The three registry maps always hold exactly the same set of call
ids: a fresh manager starts aligned, and both `SpawnAgent` (on any
outcome) and `StopAgent` preserve the alignment — no operation leaves an
entry in one map without its counterparts in the other two. -/
theorem C10_registry_maps_aligned (st0 : StoreState) (cfg : Config)
    (sj : String → String → String → String → String)
    (ns : String) (nc : Nat) (m : AgentManagerState) (callID : String)
    (h : sameKeys m) :
    sameKeys (newAgentManager st0) ∧
    sameKeys (spawnAgent cfg sj ns nc m callID).2 ∧
    sameKeys (stopAgent m callID).2 := by
  refine ⟨fun k => ⟨rfl, rfl⟩, ?_, ?_⟩
  · rcases spawnAgent_cases cfg sj ns nc m callID with
      ⟨ha, hc, hk, _⟩ | ⟨tok, _, ha, hc, hk⟩
    · intro k; rw [ha, hc, hk]; exact h k
    · intro k
      by_cases hkc : k = callID
      · subst hkc
        rw [ha, hc, hk, lookupA_insertA_self, lookupA_insertA_self,
          lookupA_insertA_self]
        exact ⟨rfl, rfl⟩
      · rw [ha, hc, hk, lookupA_insertA_ne _ _ _ _ hkc,
          lookupA_insertA_ne _ _ _ _ hkc, lookupA_insertA_ne _ _ _ _ hkc]
        exact h k
  · have ha : (stopAgent m callID).2.agents = removeA m.agents callID := by
      by_cases hx : (lookupA m.cancels callID).isSome <;> simp [stopAgent, hx]
    have hc : (stopAgent m callID).2.clients = removeA m.clients callID := by
      by_cases hx : (lookupA m.cancels callID).isSome <;> simp [stopAgent, hx]
    have hk : (stopAgent m callID).2.cancels = removeA m.cancels callID := by
      by_cases hx : (lookupA m.cancels callID).isSome <;> simp [stopAgent, hx]
    intro k
    by_cases hkc : k = callID
    · subst hkc
      rw [ha, hc, hk, lookupA_removeA_self, lookupA_removeA_self,
        lookupA_removeA_self]
      exact ⟨rfl, rfl⟩
    · rw [ha, hc, hk, lookupA_removeA_ne _ _ _ hkc,
        lookupA_removeA_ne _ _ _ hkc, lookupA_removeA_ne _ _ _ hkc]
      exact h k

/-- C10 witness: alignment holds for the fresh manager and after a concrete
spawn and a concrete stop. -/
theorem C10_registry_maps_aligned_witness :
    sameKeys (newAgentManager store0) ∧
    sameKeys (spawnAgent cfgW sjW "s1" 0 mgr0 "c1").2 ∧
    sameKeys (stopAgent mgr0 "c1").2 :=
  C10_registry_maps_aligned store0 cfgW sjW "s1" 0 mgr0 "c1"
    (fun _ => ⟨rfl, rfl⟩)

/-! ## C1: the low-confidence gate -/

/-- C1 counterexample. Concrete ports whose Recognize returns the
non-empty transcript `"hello"` at confidence 0 (below 0.5) with no error:
`ProcessIncomingAudio` nevertheless invokes Generate and Synthesize and
writes an audio artifact, while returning the transcript — the claimed
confidence gate does not exist on this path (the source discards the
confidence value). -/
theorem C1_low_confidence_counterexample :
    c1Ports.stt = some lowConfStt ∧
    lowConfStt [7] = .ok ("hello", 0) ∧
    "hello" ≠ "" ∧ (0 : ℚ) < 1/2 ∧
    (processIncomingAudio c1Ports [7]).1 = .ok "hello" ∧
    (processIncomingAudio c1Ports [7]).2.generateInvoked = true ∧
    (processIncomingAudio c1Ports [7]).2.synthesizeInvoked = true ∧
    (processIncomingAudio c1Ports [7]).2.artifactWritten = true := by
  refine ⟨rfl, rfl, by decide, by norm_num, rfl, rfl, rfl, rfl⟩

/-- C1 (amended). The low-confidence gate lives only on the streaming
window path: whenever Recognize yields a non-empty transcript with
confidence below 0.5 and no error, `processAudioChunk` drops the window
silently — no Generate, no Synthesize, no published audio; on the same
recognizer result `ProcessIncomingAudio` ignores the confidence: it still
returns the transcript to its caller, but invokes Generate exactly when an
LLM port is configured (and proceeds to synthesis as for any transcript). -/
theorem C1_low_confidence_gate_amended
    (rec : List Nat → Except String (String × ℚ))
    (cp : ChunkPorts) (pp : PipelinePorts) (audio : List Nat)
    (t : String) (c : ℚ)
    (hcp : cp.stt = some rec) (hpp : pp.stt = some rec)
    (hr : rec audio = .ok (t, c)) (_ht : t ≠ "") (hc : c < 1/2) :
    processAudioChunk cp audio = ⟨false, none, false, false⟩ ∧
    (processIncomingAudio pp audio).1 = .ok t ∧
    (processIncomingAudio pp audio).2.generateInvoked = pp.llm.isSome := by
  refine ⟨?_, ?_, ?_⟩
  · unfold processAudioChunk
    by_cases he : audio.isEmpty
    · simp [he]
    · rw [if_neg he, hcp]
      simp only [hr]
      rw [if_pos (Or.inl hc)]
  · simp only [processIncomingAudio, hpp, hr]
  · simp only [processIncomingAudio, hpp, hr]
    cases hllm : pp.llm with
    | none => simp
    | some g => cases hg : g t <;> simp [hg]

/-- C1 (amended) witness: the gate and the pass-through at the concrete
low-confidence recognizer. -/
theorem C1_low_confidence_gate_amended_witness :
    processAudioChunk c1ChunkPorts [7] = ⟨false, none, false, false⟩ ∧
    (processIncomingAudio c1Ports [7]).1 = .ok "hello" ∧
    (processIncomingAudio c1Ports [7]).2.generateInvoked = c1Ports.llm.isSome :=
  C1_low_confidence_gate_amended lowConfStt c1ChunkPorts c1Ports [7] "hello" 0
    rfl rfl rfl (by decide) (by norm_num)

/-! ## C9: Generate failures degrade gracefully -/

/-- C9. Whenever Recognize succeeds and the configured LLM's Generate
fails, neither pipeline path aborts or returns an error:
`ProcessIncomingAudio` still returns the transcript, substitutes its fixed
fallback reply and proceeds to synthesis exactly when a TTS port is
configured; the streaming path substitutes its own fixed fallback and
proceeds to synthesis exactly when both the TTS port and the outbound
audio track exist (the streaming hypotheses put the window past the
empty/low-confidence gate, where Generate is reached at all). -/
theorem C9_generate_failure_fallback
    (rec : List Nat → Except String (String × ℚ))
    (gen : String → Except String String)
    (pp : PipelinePorts) (cp : ChunkPorts) (audio : List Nat)
    (t : String) (c : ℚ) (e : String)
    (hpp : pp.stt = some rec) (hcp : cp.stt = some rec)
    (hr : rec audio = .ok (t, c))
    (hgp : pp.llm = some gen) (hgc : cp.llm = some gen)
    (hg : gen t = .error e)
    (hne : ¬ audio.isEmpty) (hgate : ¬ (c < 1/2 ∨ t = "")) :
    (processIncomingAudio pp audio).1 = .ok t ∧
    (processIncomingAudio pp audio).2.replyText = some piaFallback ∧
    (processIncomingAudio pp audio).2.synthesizeInvoked = pp.tts.isSome ∧
    (processAudioChunk cp audio).replyText = some chunkFallback ∧
    (processAudioChunk cp audio).synthesizeInvoked =
      (cp.tts.isSome && cp.audioTrackReady) := by
  have hpia :
      processIncomingAudio pp audio =
        (.ok t, ⟨true, some piaFallback,
          (match pp.tts with
           | none => ((false : Bool), (false : Bool))
           | some speak =>
             match speak piaFallback with
             | .ok audioOut => (true, !audioOut.isEmpty)
             | .error _ => (true, false)).1,
          (match pp.tts with
           | none => ((false : Bool), (false : Bool))
           | some speak =>
             match speak piaFallback with
             | .ok audioOut => (true, !audioOut.isEmpty)
             | .error _ => (true, false)).2⟩) := by
    simp [processIncomingAudio, hpp, hr, hgp, hg]
  have hchunk :
      processAudioChunk cp audio =
        ⟨true, some chunkFallback,
          (match cp.tts, cp.audioTrackReady with
           | some speak, true =>
             match speak chunkFallback with
             | .ok _ => ((true : Bool), (true : Bool))
             | .error _ => (true, false)
           | _, _ => (false, false)).1,
          (match cp.tts, cp.audioTrackReady with
           | some speak, true =>
             match speak chunkFallback with
             | .ok _ => ((true : Bool), (true : Bool))
             | .error _ => (true, false)
           | _, _ => (false, false)).2⟩ := by
    unfold processAudioChunk
    rw [if_neg hne, hcp]
    simp only [hr]
    rw [if_neg hgate, hgc]
    simp only [hg]
  refine ⟨by rw [hpia], by rw [hpia], ?_, by rw [hchunk], ?_⟩
  · rw [hpia]
    cases hts : pp.tts with
    | none => rfl
    | some speak => cases hs : speak piaFallback <;> simp [hs]
  · rw [hchunk]
    cases hts : cp.tts with
    | none => rfl
    | some speak =>
        cases htr : cp.audioTrackReady with
        | false => rfl
        | true => cases hs : speak chunkFallback <;> simp [hs]

/-- C9 witness: the fallback substitution at the concrete failing LLM. -/
theorem C9_generate_failure_fallback_witness :
    (processIncomingAudio c9Ports [7]).1 = .ok "hello world" ∧
    (processIncomingAudio c9Ports [7]).2.replyText = some piaFallback ∧
    (processIncomingAudio c9Ports [7]).2.synthesizeInvoked = c9Ports.tts.isSome ∧
    (processAudioChunk c9ChunkPorts [7]).replyText = some chunkFallback ∧
    (processAudioChunk c9ChunkPorts [7]).synthesizeInvoked =
      (c9ChunkPorts.tts.isSome && c9ChunkPorts.audioTrackReady) :=
  C9_generate_failure_fallback goodStt failLlm c9Ports c9ChunkPorts [7]
    "hello world" 1 "llm down" rfl rfl rfl rfl rfl rfl (by decide)
    (by
      rintro (h | h)
      · exact absurd h (by norm_num)
      · exact absurd h (by decide))

/-! ## C6: webhook signature verification -/

theorem hexEncode_ne_empty (l : List Nat) (h : l ≠ []) : hexEncode l ≠ "" := by
  cases l with
  | nil => exact absurd rfl h
  | cons b rest =>
      intro he
      have hlen := congrArg String.length he
      rw [hexEncode, String.length_append, String.length_mk,
        String.length_empty] at hlen
      simp at hlen

theorem base64Encode_ne_empty (l : List Nat) (h : l ≠ []) :
    base64Encode l ≠ "" := by
  match l with
  | [] => exact absurd rfl h
  | [a] =>
      intro he
      have hlen := congrArg String.length he
      rw [base64Encode, String.length_mk, String.length_empty] at hlen
      simp at hlen
  | [a, b] =>
      intro he
      have hlen := congrArg String.length he
      rw [base64Encode, String.length_mk, String.length_empty] at hlen
      simp at hlen
  | a :: b :: c :: rest =>
      intro he
      have hlen := congrArg String.length he
      rw [base64Encode, String.length_append, String.length_mk,
        String.length_empty] at hlen
      simp at hlen

/-- C6. When a shared webhook secret is configured, the handler answers
401 unless the resolved signature header (`X-LiveKit-Signature`, falling
back to `Livekit-Signature`) equals the hex or the base64 encoding of the
HMAC-SHA256 digest of the raw body under the secret; with a matching
signature, a body that fails JSON parsing yields 400, and an accepted
event yields 204 with an empty body. The digest is assumed non-empty, as
every HMAC-SHA256 digest is 32 bytes. -/
theorem C6_webhook_signature {ε : Type}
    (hmacSha256 : String → List Nat → List Nat)
    (parseEvent : List Nat → Option ε)
    (secret : String) (req : WebhookRequest)
    (hsec : secret ≠ "")
    (hdig : hmacSha256 secret req.body ≠ []) :
    ((resolvedSignature req ≠ hexEncode (hmacSha256 secret req.body) ∧
      resolvedSignature req ≠ base64Encode (hmacSha256 secret req.body)) →
      (webhookLivekit hmacSha256 parseEvent secret req).1 = 401) ∧
    ((resolvedSignature req = hexEncode (hmacSha256 secret req.body) ∨
      resolvedSignature req = base64Encode (hmacSha256 secret req.body)) →
      ((parseEvent req.body = none →
        webhookLivekit hmacSha256 parseEvent secret req = (400, "bad request")) ∧
       (∀ ev, parseEvent req.body = some ev →
        webhookLivekit hmacSha256 parseEvent secret req = (204, "")))) := by
  constructor
  · rintro ⟨hx, hb⟩
    simp only [webhookLivekit, if_neg hsec, signatureVerdict]
    by_cases hs : resolvedSignature req = ""
    · rw [if_pos hs]
    · rw [if_neg hs, if_neg hx, if_neg hb]
  · intro hmatch
    have hsne : resolvedSignature req ≠ "" := by
      rcases hmatch with h | h
      · rw [h]; exact hexEncode_ne_empty _ hdig
      · rw [h]; exact base64Encode_ne_empty _ hdig
    have hverdict : signatureVerdict hmacSha256 secret req = none := by
      unfold signatureVerdict
      rw [if_neg hsne]
      by_cases hx2 : resolvedSignature req =
          hexEncode (hmacSha256 secret req.body)
      · rw [if_pos hx2]
      · rw [if_neg hx2]
        rcases hmatch with h | h
        · exact absurd h hx2
        · rw [if_pos h]
    constructor
    · intro hp
      unfold webhookLivekit
      rw [if_neg hsec, hverdict, hp]
    · intro ev hp
      unfold webhookLivekit
      rw [if_neg hsec, hverdict, hp]

/-- C6 witness: a correctly hex-signed JSON event is accepted with 204 and
an empty body, a wrongly signed request is rejected with 401, and a
correctly base64-signed but malformed body yields 400. -/
theorem C6_webhook_signature_witness :
    webhookLivekit hmacW parseW "sec" reqHexOk = (204, "") ∧
    (webhookLivekit hmacW parseW "sec" reqBadSig).1 = 401 ∧
    webhookLivekit hmacW parseW "sec" reqBadJson = (400, "bad request") :=
  ⟨((C6_webhook_signature hmacW parseW "sec" reqHexOk (by decide)
      (by decide)).2 (.inl rfl)).2 () rfl,
   (C6_webhook_signature hmacW parseW "sec" reqBadSig (by decide)
      (by decide)).1 ⟨by decide, by decide⟩,
   ((C6_webhook_signature hmacW parseW "sec" reqBadJson (by decide)
      (by decide)).2 (.inr rfl)).1 rfl⟩
